import Mathlib

/-!
Formal model of the `discount_scraper` offer-normalization pipeline
(`internal/service/offer.go` and `internal/parser/ica.go`), with proofs of
its numeric-parsing, classification and discount-calculation properties.

Modelling conventions:
* Go strings are modelled as `List Char` (the pipeline inspects runes only).
* Go `float64` prices are modelled as exact rationals `ℚ`: every constant
  and operation relevant here (`strconv.ParseFloat` of short decimal
  strings, `+ - * /`, `math.Round`, comparisons against integers) is
  modelled by its exact rational counterpart.
* Go `int` is modelled as `Int`; the captured digit runs in this pipeline
  are far below 64-bit overflow, so `strconv.Atoi` is modelled as exact
  digit-string evaluation.
* Each Go regular expression used by the service is modelled by an explicit
  leftmost-match scanner faithful to RE2 semantics for that particular
  pattern (`percentageRegex`, `multibuyRegex`, `singlePriceRegex`,
  `originalPriceRegex`, and the two local helper patterns of
  `cleanAndParse` / `parsePrice`).
-/

set_option maxRecDepth 4000

set_option allowUnsafeReducibility true

attribute [semireducible] Rat.add Rat.sub Rat.mul Rat.inv Rat.ofScientific

namespace DiscountScraper

/-- Go's `\s` character class in `regexp` (ASCII whitespace: `[\t\n\f\r ]`). -/
def goIsSpace (c : Char) : Bool :=
  c = ' ' || c = '\t' || c = '\n' || c = '\x0c' || c = '\r'

/-- Value of a run of ASCII digits, as read by `strconv.Atoi` /
`strconv.ParseFloat` (exact, no overflow: see module conventions). -/
def digitsToNat (cs : List Char) : Nat :=
  cs.foldl (fun n c => 10 * n + (c.toNat - 48)) 0

/-- `strconv.ParseFloat` restricted to the strings `cleanAndParse` can feed
it: after cleaning, the string contains only ASCII digits, `'.'` and
non-space Go whitespace.  `ParseFloat` succeeds exactly when the string is a
plain decimal literal: only digits and at most one dot, with at least one
digit.  The value is returned exactly (as a rational). -/
def goParseFloat (cs : List Char) : Option ℚ :=
  if (cs.all fun c => c.isDigit || c = '.') ∧ cs.count '.' ≤ 1 ∧ cs.any Char.isDigit then
    some ((digitsToNat (cs.takeWhile fun c => c ≠ '.') : ℚ) +
      (digitsToNat ((cs.dropWhile fun c => c ≠ '.').drop 1) : ℚ) /
        ((10 ^ ((cs.dropWhile fun c => c ≠ '.').drop 1).length : ℕ) : ℚ))
  else none

/-- The character-level cleaning of `cleanAndParse`: replace `':'` and `','`
by `'.'`, strip every character matching `[^\d\.\s]`, then remove the space
character (Go removes only `" "`, not other whitespace). -/
def cleanChars (cs : List Char) : List Char :=
  ((cs.map fun c => if c = ':' then '.' else if c = ',' then '.' else c).filter
      fun c => c.isDigit || c = '.' || goIsSpace c).filter fun c => c ≠ ' '

/-- `cleanAndParse` from `internal/service/offer.go`: clean the string,
parse it as a float (0 on failure), and apply the magnitude heuristic:
a value above 1000 in a text without `':'` is divided by 100. -/
def cleanAndParse (priceStr : List Char) : ℚ :=
  match goParseFloat (cleanChars priceStr) with
  | none => 0
  | some price =>
    if 1000 < price ∧ priceStr.contains ':' = false then price / 100 else price

/-- Character class of the range regex `[\d:,\.]+` local to `parsePrice`. -/
def rangeClass (c : Char) : Bool :=
  c.isDigit || c = ':' || c = ',' || c = '.'

/-- Leftmost maximal run of `rangeClass` characters, together with the rest
of the string after the run (`FindAllString` steps over maximal runs). -/
def firstRangeRun : List Char → Option (List Char × List Char)
  | [] => none
  | c :: rest =>
    if rangeClass c then some (c :: rest.takeWhile rangeClass, rest.dropWhile rangeClass)
    else firstRangeRun rest

/-- `reRange.FindAllString(priceString, 2)` of `parsePrice`: the first two
maximal numeric substrings, when two exist. -/
def findTwoRuns (cs : List Char) : Option (List Char × List Char) :=
  match firstRangeRun cs with
  | none => none
  | some (r1, rest) =>
    match firstRangeRun rest with
    | none => none
    | some (r2, _) => some (r1, r2)

/-- `parsePrice` from `internal/service/offer.go`: empty input is 0; input
with a hyphen is treated as a range (mean of the first two numeric
substrings when both parse strictly positive); otherwise `cleanAndParse`. -/
def parsePrice (priceString : List Char) : ℚ :=
  if priceString = [] then 0
  else if priceString.contains '-' then
    match findTwoRuns priceString with
    | some (m1, m2) =>
      if 0 < cleanAndParse m1 ∧ 0 < cleanAndParse m2 then
        (cleanAndParse m1 + cleanAndParse m2) / 2
      else cleanAndParse priceString
    | none => cleanAndParse priceString
  else cleanAndParse priceString

/-- Literal match of a pattern at the head of the input. -/
def litMatch : List Char → List Char → Bool
  | [], _ => true
  | _ :: _, [] => false
  | p :: ps, c :: cs => p = c && litMatch ps cs

/-- `percentageRegex.FindStringSubmatch`, pattern `(\d+)%`: the first
(leftmost) maximal digit run immediately followed by `'%'`; `none` when the
pattern does not match. -/
def percentCapture : List Char → Option (List Char)
  | [] => none
  | c :: rest =>
    if c.isDigit then
      match rest.dropWhile Char.isDigit with
      | '%' :: _ => some (c :: rest.takeWhile Char.isDigit)
      | _ => percentCapture rest
    else percentCapture rest

/-- Character class `[\d\s:,\.]` of `multibuyRegex`'s price group. -/
def mbClass (c : Char) : Bool :=
  c.isDigit || goIsSpace c || c = ':' || c = ',' || c = '.'

/-- `multibuyRegex.FindStringSubmatch`, pattern `(\d+)\s*för\s*([\d\s:,\.]+)`:
the leftmost match's quantity digits (group 1) and price text (group 2).
Group 2 reflects RE2's greedy submatch semantics: the inner `\s*` takes the
maximal whitespace run after `för` and gives one character back to the
mandatory `[\d\s:,\.]+` when nothing else follows. -/
def multibuyCapture : List Char → Option (List Char × List Char)
  | [] => none
  | c :: rest =>
    if c.isDigit then
      let r1 := (rest.dropWhile Char.isDigit).dropWhile goIsSpace
      if litMatch ['f', 'ö', 'r'] r1 then
        let after := r1.drop 3
        let cls := (after.dropWhile goIsSpace).takeWhile mbClass
        if cls ≠ [] then some (c :: rest.takeWhile Char.isDigit, cls)
        else
          match (after.takeWhile goIsSpace).reverse with
          | s :: _ => some (c :: rest.takeWhile Char.isDigit, [s])
          | [] => multibuyCapture rest
      else multibuyCapture rest
    else multibuyCapture rest

/-- `singlePriceRegex.FindStringSubmatch`, pattern
`(\d+[\.,]?\d*)\s*(?:[-:\/]|kr|st|kg)*`: group 1 of the leftmost match,
which starts at the first digit of the text (everything after group 1 is
optional, so the regex matches iff the text contains a digit). -/
def singleCapture : List Char → Option (List Char)
  | [] => none
  | c :: rest =>
    if c.isDigit then
      some (match rest.dropWhile Char.isDigit with
        | d :: r2 =>
          if d = '.' || d = ',' then
            (c :: rest.takeWhile Char.isDigit) ++ d :: r2.takeWhile Char.isDigit
          else c :: rest.takeWhile Char.isDigit
        | [] => c :: rest.takeWhile Char.isDigit)
    else singleCapture rest

/-- Character class `[\d:,-]` of `originalPriceRegex`'s capture group. -/
def ordPrisClass (c : Char) : Bool :=
  c.isDigit || c = ':' || c = ',' || c = '-'

/-- `originalPriceRegex.FindStringSubmatch`, pattern `Ord\.pris\s*([\d:,-]+)`:
group 1 of the leftmost match. -/
def findOrdPris : List Char → Option (List Char)
  | [] => none
  | c :: rest =>
    if litMatch ['O', 'r', 'd', '.', 'p', 'r', 'i', 's'] (c :: rest) then
      let cap := (((c :: rest).drop 8).dropWhile goIsSpace).takeWhile ordPrisClass
      if cap ≠ [] then some cap else findOrdPris rest
    else findOrdPris rest

/-- `models.Store` (display name plus URL slug). -/
structure Store where
  Name : String := ""
  URLSlug : String := ""
deriving DecidableEq

/-- `parser.RawOffer`: the raw, unparsed string data handed from the
scraper to the service. -/
structure RawOffer where
  PromotionID : String := ""
  Name : String := ""
  OriginalText : String := ""
  DealText : String := ""
deriving DecidableEq

/-- `models.Offer`, restricted to the fields the service pipeline writes
(the GORM bookkeeping, categories and validity fields are never touched by
the normalization code).  Field defaults are Go zero values. -/
structure Offer where
  StoreName : String := ""
  Name : String := ""
  ProductURL : String := ""
  OfferType : String := ""
  OriginalPrice : ℚ := 0
  SalePrice : ℚ := 0
  SaleQuantity : Int := 0
  SalePriceTotal : ℚ := 0
  Discount : Int := 0
  DiscountPercentage : ℚ := 0
deriving DecidableEq

/-- `math.Round`: nearest integer, rounding half away from zero. -/
def mathRound (q : ℚ) : ℚ :=
  if q < 0 then -(((-q + 1 / 2).floor : ℤ) : ℚ) else (((q + 1 / 2).floor : ℤ) : ℚ)

/-- Shared tail of `calculateDiscount`: guard against a zero baseline, then
compute the percentage and round it to two decimals via `math.Round`. -/
def discountOf (originalTotal saleTotal : ℚ) : ℚ :=
  if originalTotal = 0 then 0
  else
    let discount := (originalTotal - saleTotal) / originalTotal * 100
    mathRound (discount * 100) / 100

/-- `calculateDiscount` from `internal/service/offer.go`. -/
def calculateDiscount (offer : Offer) : ℚ :=
  if offer.OfferType = "percentage" then (offer.Discount : ℚ)
  else if offer.OfferType = "single" then
    discountOf offer.OriginalPrice offer.SalePrice
  else if offer.OfferType = "multibuy" then
    discountOf (offer.OriginalPrice * (offer.SaleQuantity : ℚ)) offer.SalePriceTotal
  else 0

def ICA_BASE_URL : String := "https://www.ica.se/erbjudanden"

/-- The body of the transformation loop of `GetStoreOffers`: build one
`Offer` from one `RawOffer` (original-price extraction, first-match-wins
classification, discount calculation, URL synthesis). -/
def normalizeOffer (store : Store) (rawDeal : RawOffer) : Offer :=
  let originalPrice : ℚ :=
    match findOrdPris rawDeal.OriginalText.data with
    | some m => parsePrice m
    | none => 0
  let deal0 : Offer :=
    { StoreName := store.Name
      Name := rawDeal.Name
      OriginalPrice := originalPrice
      OfferType := "unknown"
      ProductURL :=
        ICA_BASE_URL ++ "/" ++ store.URLSlug ++ "?id=" ++ rawDeal.PromotionID ++
          "&action=details" }
  let deal1 : Offer :=
    match percentCapture rawDeal.DealText.data with
    | some d => { deal0 with OfferType := "percentage", Discount := (digitsToNat d : Int) }
    | none =>
      match multibuyCapture rawDeal.DealText.data with
      | some (q, p) =>
        { deal0 with
          OfferType := "multibuy"
          SaleQuantity := (digitsToNat q : Int)
          SalePriceTotal := parsePrice p }
      | none =>
        match singleCapture rawDeal.DealText.data with
        | some p => { deal0 with OfferType := "single", SalePrice := parsePrice p }
        | none => deal0
  { deal1 with DiscountPercentage := calculateDiscount deal1 }

/-- The accumulation loop of `GetStoreOffers` (`offers = append(offers, deal)`
over the raw deals, starting from the empty slice). -/
def getStoreOffersLoop (store : Store) (rawDeals : List RawOffer) : List Offer :=
  rawDeals.foldl (fun offers rawDeal => offers ++ [normalizeOffer store rawDeal]) []

/-- One `article` node as seen by `ParseRawOffers` in
`internal/parser/ica.go`: the `data-promotion-id` attribute (absent when the
attribute does not exist), and the text of the title, original-price and
deal-price sub-elements. -/
structure ArticleCard where
  promotionId : Option String := none
  titleText : String := ""
  originalText : String := ""
  dealText : String := ""
deriving DecidableEq

/-- `unicode.IsSpace` restricted to Latin-1 (the whitespace `TrimSpace`
strips); titles containing exotic Unicode spaces are outside this model. -/
def goUnicodeIsSpace (c : Char) : Bool :=
  goIsSpace c || c = '\x0b' || c = '\x85' || c = '\xa0'

/-- `strings.TrimSpace`. -/
def goTrimSpace (s : String) : String :=
  ⟨((s.data.dropWhile goUnicodeIsSpace).reverse.dropWhile goUnicodeIsSpace).reverse⟩

/-- `strings.ToLower` (ASCII case folding; the deal texts this scraper
lowercases are ASCII apart from Swedish vowels, which are already
lowercase in the page's price splashes). -/
def goToLower (s : String) : String :=
  ⟨s.data.map Char.toLower⟩

/-- The per-card body of `ParseRawOffers`: skip silently when
`data-promotion-id` is absent, skip with a logged warning when the trimmed
title is empty, otherwise emit the raw offer (original text verbatim, deal
text lowercased).  The second component is the warning line written to the
log, when any. -/
def extractCard (sel : ArticleCard) : Option RawOffer × Option String :=
  match sel.promotionId with
  | none => (none, none)
  | some pid =>
    let name := goTrimSpace sel.titleText
    if name = "" then
      (none, some ("Missing name for promotion ID: " ++ pid ++ ". Skipping."))
    else
      (some { PromotionID := pid
              Name := name
              OriginalText := sel.originalText
              DealText := goToLower sel.dealText }, none)

/-- `ParseRawOffers`' traversal over the article nodes: the accumulated raw
offers and the warning log lines, in card order. -/
def parseRawOffers (cards : List ArticleCard) : List RawOffer × List String :=
  (cards.filterMap fun c => (extractCard c).1, cards.filterMap fun c => (extractCard c).2)

example : parsePrice "7990".data = 799 / 10 := by decide
example : parsePrice "79:90".data = 799 / 10 := by decide
example : parsePrice "20-30".data = 25 := by decide
example : parsePrice "".data = 0 := by decide
example : parsePrice "abc".data = 0 := by decide
example : cleanAndParse "25:90".data = 259 / 10 := by decide

example :
    (normalizeOffer { Name := "S", URLSlug := "s" }
        { PromotionID := "p1", Name := "Milk", OriginalText := "Ord.pris 20:00",
          DealText := "15:-/st" }) =
      { StoreName := "S", Name := "Milk",
        ProductURL := "https://www.ica.se/erbjudanden/s?id=p1&action=details",
        OfferType := "single", OriginalPrice := 20, SalePrice := 15,
        DiscountPercentage := 25 } := by decide

example :
    (normalizeOffer { Name := "S", URLSlug := "s" }
        { PromotionID := "p1", Name := "X", DealText := "2 för 30:-" }).OfferType =
      "multibuy" := by decide

example :
    (normalizeOffer { Name := "S", URLSlug := "s" }
        { PromotionID := "p1", Name := "X", DealText := "2 för 30:- (20%)" }).OfferType =
      "percentage" := by decide

example :
    (normalizeOffer { Name := "S", URLSlug := "s" }
        { PromotionID := "p1", Name := "X", DealText := "25%" }) =
      { StoreName := "S", Name := "X",
        ProductURL := "https://www.ica.se/erbjudanden/s?id=p1&action=details",
        OfferType := "percentage", Discount := 25,
        DiscountPercentage := 25 } := by decide

example :
    calculateDiscount
        { OfferType := "multibuy", OriginalPrice := 20, SaleQuantity := 3,
          SalePriceTotal := 50 } =
      1667 / 100 := by decide

example :
    (extractCard
          { promotionId := some "p2", titleText := "  Bread ",
            originalText := "Ord.pris 30:00", dealText := "20:- KR" }).1 =
      some
        { PromotionID := "p2", Name := "Bread", OriginalText := "Ord.pris 30:00",
          DealText := "20:- kr" } := by decide

/-- C3: for every price text whose cleaned form parses to a value above
1000 while the original text contains no `':'`, `cleanAndParse` divides the
parsed value by 100; a hyphen-free text is parsed by `parsePrice` exactly
through `cleanAndParse`; and in particular `parsePrice "7990" = 79.90`
while `parsePrice "79:90" = 79.90` (the heuristic does not double-apply to
an already decimal-marked price). -/
theorem C3_magnitude_heuristic :
    (∀ (s : List Char) (v : ℚ), goParseFloat (cleanChars s) = some v → 1000 < v →
      s.contains ':' = false → cleanAndParse s = v / 100)
    ∧ (∀ s : List Char, s.contains '-' = false → parsePrice s = cleanAndParse s)
    ∧ parsePrice "7990".data = 799 / 10 ∧ parsePrice "79:90".data = 799 / 10 := by
  refine ⟨?_, ?_, ?_, ?_⟩
  · intro s v hparse hv hcolon
    have hcolon' : ':' ∉ s := by simpa using hcolon
    unfold cleanAndParse
    rw [hparse]
    simp [hv, hcolon']
  · intro s hdash
    have hdash' : '-' ∉ s := by simpa using hdash
    unfold parsePrice
    by_cases hnil : s = []
    · subst hnil
      simp
      decide
    · simp [hnil, hdash']
  · decide
  · decide

/-- Witness for `C3_magnitude_heuristic` at the concrete inputs `"7990"`
(heuristic fires) and `"7990"` seen through `parsePrice`. -/
theorem C3_magnitude_heuristic_witness :
    cleanAndParse "7990".data = 7990 / 100 ∧
    parsePrice "7990".data = cleanAndParse "7990".data := by
  constructor
  · exact C3_magnitude_heuristic.1 "7990".data 7990 (by decide)
      (by decide) (by decide)
  · exact C3_magnitude_heuristic.2.1 "7990".data (by decide)

/-- C4: for every price text containing a hyphen, `parsePrice` extracts the
first two numeric substrings and returns their arithmetic mean when both
sub-parses are strictly positive, and otherwise (not both positive, or
fewer than two numeric substrings) falls through to parsing the whole
string; in particular `parsePrice "20-30" = 25`. -/
theorem C4_range_mean :
    (∀ s : List Char, s.contains '-' = true →
      (∀ m1 m2, findTwoRuns s = some (m1, m2) →
        (0 < cleanAndParse m1 ∧ 0 < cleanAndParse m2 →
          parsePrice s = (cleanAndParse m1 + cleanAndParse m2) / 2)
        ∧ (¬(0 < cleanAndParse m1 ∧ 0 < cleanAndParse m2) →
          parsePrice s = cleanAndParse s))
      ∧ (findTwoRuns s = none → parsePrice s = cleanAndParse s))
    ∧ parsePrice "20-30".data = 25 := by
  constructor
  · intro s hdash
    have hdash' : '-' ∈ s := by simpa using hdash
    have hnil : s ≠ [] := by
      intro e
      subst e
      simp at hdash'
    constructor
    · intro m1 m2 hfind
      constructor
      · intro hpos
        unfold parsePrice
        simp [hnil, hdash', hfind, hpos]
      · intro hneg
        unfold parsePrice
        simp [hnil, hdash', hfind, hneg]
    · intro hfind
      unfold parsePrice
      simp [hnil, hdash', hfind]
  · decide

/-- Witness for `C4_range_mean` at the concrete range text `"20-30"`. -/
theorem C4_range_mean_witness :
    parsePrice "20-30".data = (cleanAndParse "20".data + cleanAndParse "30".data) / 2 := by
  exact (((C4_range_mean.1 "20-30".data (by decide)).1 "20".data "30".data
    (by decide)).1 (by decide))

/-- C5: for every offer with scheme `single`, `calculateDiscount` returns
`((originalPrice - salePrice) / originalPrice) * 100` rounded to two
decimals when `originalPrice` is non-zero, and returns 0 when
`originalPrice = 0`; in particular an original price of 100 with sale
price 75 yields `25.00`. -/
theorem C5_single_discount :
    (∀ o : Offer, o.OfferType = "single" →
      (o.OriginalPrice ≠ 0 →
        calculateDiscount o =
          mathRound ((o.OriginalPrice - o.SalePrice) / o.OriginalPrice * 100 * 100) / 100)
      ∧ (o.OriginalPrice = 0 → calculateDiscount o = 0))
    ∧ calculateDiscount { OfferType := "single", OriginalPrice := 100, SalePrice := 75 } =
      25 := by
  constructor
  · intro o h
    constructor
    · intro hne
      simp [calculateDiscount, h, discountOf, hne]
    · intro heq
      simp [calculateDiscount, h, discountOf, heq]
  · decide

/-- Witness for `C5_single_discount` at
`{OfferType := single, OriginalPrice := 100, SalePrice := 75}`. -/
theorem C5_single_discount_witness :
    calculateDiscount { OfferType := "single", OriginalPrice := 100, SalePrice := 75 } =
      mathRound (((100 : ℚ) - 75) / 100 * 100 * 100) / 100 ∧
    calculateDiscount { OfferType := "single", OriginalPrice := 0, SalePrice := 75 } = 0 := by
  constructor
  · exact (C5_single_discount.1
      { OfferType := "single", OriginalPrice := 100, SalePrice := 75 } rfl).1
      (by decide)
  · exact (C5_single_discount.1
      { OfferType := "single", OriginalPrice := 0, SalePrice := 75 } rfl).2 rfl

/-- C6: `calculateDiscount` rounds the `single` and `multibuy` percentage
to two decimals with `math.Round` (half away from zero, not truncation),
and a negative result is returned as-is, never clamped: the multibuy
baseline is `originalPrice * saleQuantity`, and
`{originalPrice 20, saleQuantity 3, salePriceTotal 50}` yields `16.67`.
The two `single` instances pin the rounding mode down: a raw discount of
`0.015` rounds to `0.02` (truncation would give `0.01`) and `-0.015`
rounds to `-0.02` (clamping would give `0`, truncation `-0.01`). -/
theorem C6_round_half_away_from_zero :
    (∀ o : Offer, o.OfferType = "multibuy" →
      o.OriginalPrice * (o.SaleQuantity : ℚ) ≠ 0 →
      calculateDiscount o =
        mathRound ((o.OriginalPrice * (o.SaleQuantity : ℚ) - o.SalePriceTotal) /
            (o.OriginalPrice * (o.SaleQuantity : ℚ)) * 100 * 100) / 100)
    ∧ (∀ o : Offer, o.OfferType = "single" → o.OriginalPrice ≠ 0 →
      calculateDiscount o =
        mathRound ((o.OriginalPrice - o.SalePrice) / o.OriginalPrice * 100 * 100) / 100)
    ∧ calculateDiscount
        { OfferType := "multibuy", OriginalPrice := 20, SaleQuantity := 3,
          SalePriceTotal := 50 } =
      1667 / 100
    ∧ calculateDiscount
        { OfferType := "single", OriginalPrice := 20000, SalePrice := 19997 } =
      2 / 100
    ∧ calculateDiscount
        { OfferType := "single", OriginalPrice := 20000, SalePrice := 20003 } =
      -(2 / 100) := by
  refine ⟨?_, ?_, ?_, ?_, ?_⟩
  · intro o h hne
    simp [calculateDiscount, h, discountOf, hne]
  · intro o h hne
    simp [calculateDiscount, h, discountOf, hne]
  · decide
  · decide
  · decide

/-- Witness for `C6_round_half_away_from_zero` at the multibuy offer
`{originalPrice 20, saleQuantity 3, salePriceTotal 50}`. -/
theorem C6_round_half_away_from_zero_witness :
    calculateDiscount
        { OfferType := "multibuy", OriginalPrice := 20, SaleQuantity := 3,
          SalePriceTotal := 50 } =
      mathRound (((20 : ℚ) * 3 - 50) / (20 * 3) * 100 * 100) / 100 ∧
    calculateDiscount
        { OfferType := "single", OriginalPrice := 20000, SalePrice := 19997 } =
      mathRound (((20000 : ℚ) - 19997) / 20000 * 100 * 100) / 100 := by
  constructor
  · exact C6_round_half_away_from_zero.1
      { OfferType := "multibuy", OriginalPrice := 20, SaleQuantity := 3, SalePriceTotal := 50 }
      rfl (by decide)
  · exact C6_round_half_away_from_zero.2.1
      { OfferType := "single", OriginalPrice := 20000, SalePrice := 19997 }
      rfl (by decide)

/-- C10: for a `multibuy` offer `calculateDiscount` returns 0 exactly when
the quantity-scaled baseline `originalPrice * saleQuantity` is 0 — in
particular for `saleQuantity = 0` with positive `originalPrice` and
`salePriceTotal` — because the division guard tests the baseline, not
`originalPrice` alone; with a non-zero baseline the guarded division
branch is always taken. -/
theorem C10_multibuy_baseline_guard :
    ∀ o : Offer, o.OfferType = "multibuy" →
      (o.OriginalPrice * (o.SaleQuantity : ℚ) = 0 → calculateDiscount o = 0)
      ∧ (o.OriginalPrice * (o.SaleQuantity : ℚ) ≠ 0 →
        calculateDiscount o =
          mathRound ((o.OriginalPrice * (o.SaleQuantity : ℚ) - o.SalePriceTotal) /
              (o.OriginalPrice * (o.SaleQuantity : ℚ)) * 100 * 100) / 100) := by
  intro o h
  constructor
  · intro heq
    simp [calculateDiscount, h, discountOf, heq]
  · intro hne
    simp [calculateDiscount, h, discountOf, hne]

/-- Witness for `C10_multibuy_baseline_guard`: `saleQuantity = 0` with
`originalPrice = 10 > 0` and `salePriceTotal = 50 > 0` yields 0, and a
non-zero baseline takes the division branch. -/
theorem C10_multibuy_baseline_guard_witness :
    calculateDiscount
        { OfferType := "multibuy", OriginalPrice := 10, SaleQuantity := 0,
          SalePriceTotal := 50 } = 0 ∧
    calculateDiscount
        { OfferType := "multibuy", OriginalPrice := 20, SaleQuantity := 3,
          SalePriceTotal := 50 } =
      mathRound (((20 : ℚ) * 3 - 50) / (20 * 3) * 100 * 100) / 100 := by
  constructor
  · exact (C10_multibuy_baseline_guard
      { OfferType := "multibuy", OriginalPrice := 10, SaleQuantity := 0, SalePriceTotal := 50 }
      rfl).1 (by decide)
  · exact (C10_multibuy_baseline_guard
      { OfferType := "multibuy", OriginalPrice := 20, SaleQuantity := 3, SalePriceTotal := 50 }
      rfl).2 (by decide)

theorem percentCapture_isSome_of_split (c : Char) (hd : c.isDigit) :
    ∀ l r : List Char, (percentCapture (l ++ c :: '%' :: r)).isSome := by
  intro l
  induction l with
  | nil =>
    intro r
    simp [percentCapture, hd, List.dropWhile_cons, (by decide : ('%').isDigit = false)]
  | cons a l ih =>
    intro r
    by_cases ha : a.isDigit
    · simp only [List.cons_append, percentCapture, ha, if_true]
      split
      · simp
      · exact ih r
    · simp only [List.cons_append, percentCapture, ha, if_false]
      exact ih r

theorem singleCapture_isSome_eq_any (cs : List Char) :
    (singleCapture cs).isSome = cs.any Char.isDigit := by
  induction cs with
  | nil => rfl
  | cons c rest ih =>
    by_cases hc : c.isDigit
    · simp [singleCapture, hc]
    · simp [singleCapture, hc, ih]

/-- C9: every offer produced by the normalization loop populates only the
sale fields relevant to its scheme, leaving the rest at their zero value:
`percentage` only `Discount`, `multibuy` only `SaleQuantity` and
`SalePriceTotal`, `single` only `SalePrice`, and `unknown` none of them. -/
theorem C9_scheme_field_invariant :
    ∀ (store : Store) (raw : RawOffer),
      ((normalizeOffer store raw).OfferType = "percentage" →
        (normalizeOffer store raw).SaleQuantity = 0 ∧
        (normalizeOffer store raw).SalePriceTotal = 0 ∧
        (normalizeOffer store raw).SalePrice = 0)
      ∧ ((normalizeOffer store raw).OfferType = "multibuy" →
        (normalizeOffer store raw).Discount = 0 ∧
        (normalizeOffer store raw).SalePrice = 0)
      ∧ ((normalizeOffer store raw).OfferType = "single" →
        (normalizeOffer store raw).Discount = 0 ∧
        (normalizeOffer store raw).SaleQuantity = 0 ∧
        (normalizeOffer store raw).SalePriceTotal = 0)
      ∧ ((normalizeOffer store raw).OfferType = "unknown" →
        (normalizeOffer store raw).Discount = 0 ∧
        (normalizeOffer store raw).SaleQuantity = 0 ∧
        (normalizeOffer store raw).SalePriceTotal = 0 ∧
        (normalizeOffer store raw).SalePrice = 0) := by
  intro store raw
  unfold normalizeOffer
  cases hp : percentCapture raw.DealText.data with
  | some d => simp
  | none =>
    cases hm : multibuyCapture raw.DealText.data with
    | some qp =>
      obtain ⟨q, p⟩ := qp
      simp
    | none =>
      cases hs : singleCapture raw.DealText.data with
      | some p => simp
      | none => simp

/-- Witness for `C9_scheme_field_invariant`: one concrete raw deal per
scheme, each discharging the corresponding hypothesis. -/
theorem C9_scheme_field_invariant_witness :
    ((normalizeOffer { Name := "S", URLSlug := "s" }
        { PromotionID := "p", Name := "A", DealText := "25%" }).SaleQuantity = 0 ∧
      (normalizeOffer { Name := "S", URLSlug := "s" }
        { PromotionID := "p", Name := "A", DealText := "25%" }).SalePriceTotal = 0 ∧
      (normalizeOffer { Name := "S", URLSlug := "s" }
        { PromotionID := "p", Name := "A", DealText := "25%" }).SalePrice = 0)
    ∧ ((normalizeOffer { Name := "S", URLSlug := "s" }
        { PromotionID := "p", Name := "A", DealText := "2 för 30" }).Discount = 0 ∧
      (normalizeOffer { Name := "S", URLSlug := "s" }
        { PromotionID := "p", Name := "A", DealText := "2 för 30" }).SalePrice = 0)
    ∧ ((normalizeOffer { Name := "S", URLSlug := "s" }
        { PromotionID := "p", Name := "A", DealText := "25:-/st" }).Discount = 0 ∧
      (normalizeOffer { Name := "S", URLSlug := "s" }
        { PromotionID := "p", Name := "A", DealText := "25:-/st" }).SaleQuantity = 0 ∧
      (normalizeOffer { Name := "S", URLSlug := "s" }
        { PromotionID := "p", Name := "A", DealText := "25:-/st" }).SalePriceTotal = 0)
    ∧ ((normalizeOffer { Name := "S", URLSlug := "s" }
        { PromotionID := "p", Name := "A", DealText := "halva priset" }).Discount = 0 ∧
      (normalizeOffer { Name := "S", URLSlug := "s" }
        { PromotionID := "p", Name := "A", DealText := "halva priset" }).SaleQuantity = 0 ∧
      (normalizeOffer { Name := "S", URLSlug := "s" }
        { PromotionID := "p", Name := "A", DealText := "halva priset" }).SalePriceTotal = 0 ∧
      (normalizeOffer { Name := "S", URLSlug := "s" }
        { PromotionID := "p", Name := "A", DealText := "halva priset" }).SalePrice = 0) := by
  refine ⟨?_, ?_, ?_, ?_⟩
  · exact (C9_scheme_field_invariant { Name := "S", URLSlug := "s" }
      { PromotionID := "p", Name := "A", DealText := "25%" }).1
      (by decide)
  · exact (C9_scheme_field_invariant { Name := "S", URLSlug := "s" }
      { PromotionID := "p", Name := "A", DealText := "2 för 30" }).2.1
      (by decide)
  · exact (C9_scheme_field_invariant { Name := "S", URLSlug := "s" }
      { PromotionID := "p", Name := "A", DealText := "25:-/st" }).2.2.1
      (by decide)
  · exact (C9_scheme_field_invariant { Name := "S", URLSlug := "s" }
      { PromotionID := "p", Name := "A", DealText := "halva priset" }).2.2.2
      (by decide)

/-- C2: the classification in `GetStoreOffers` is first-match-wins in the
fixed order percentage → multibuy → single → unknown: any deal text with a
digit immediately followed by `'%'` is classified `percentage`; when the
percentage pattern fails, a multibuy match yields `multibuy`; when both
fail, any remaining digit yields `single`; and a text with no digit at all
(hence no pattern match) yields `unknown`. -/
theorem C2_first_match_wins :
    ∀ (store : Store) (raw : RawOffer),
      ((∃ l c r, raw.DealText.data = l ++ c :: '%' :: r ∧ c.isDigit) →
        (normalizeOffer store raw).OfferType = "percentage")
      ∧ (percentCapture raw.DealText.data = none →
          (multibuyCapture raw.DealText.data).isSome →
          (normalizeOffer store raw).OfferType = "multibuy")
      ∧ (percentCapture raw.DealText.data = none →
          multibuyCapture raw.DealText.data = none →
          raw.DealText.data.any Char.isDigit = true →
          (normalizeOffer store raw).OfferType = "single")
      ∧ (percentCapture raw.DealText.data = none →
          multibuyCapture raw.DealText.data = none →
          raw.DealText.data.any Char.isDigit = false →
          (normalizeOffer store raw).OfferType = "unknown") := by
  intro store raw
  refine ⟨?_, ?_, ?_, ?_⟩
  · rintro ⟨l, c, r, hsplit, hdig⟩
    have h : (percentCapture raw.DealText.data).isSome := by
      rw [hsplit]
      exact percentCapture_isSome_of_split c hdig l r
    obtain ⟨d, hd⟩ := Option.isSome_iff_exists.mp h
    unfold normalizeOffer
    simp [hd]
  · intro hp hm
    obtain ⟨qp, hm'⟩ := Option.isSome_iff_exists.mp hm
    obtain ⟨q, p⟩ := qp
    unfold normalizeOffer
    simp [hp, hm']
  · intro hp hm hany
    have h : (singleCapture raw.DealText.data).isSome := by
      rw [singleCapture_isSome_eq_any]
      exact hany
    obtain ⟨p, hs⟩ := Option.isSome_iff_exists.mp h
    unfold normalizeOffer
    simp [hp, hm, hs]
  · intro hp hm hany
    have h : singleCapture raw.DealText.data = none := by
      rw [← Option.not_isSome_iff_eq_none, singleCapture_isSome_eq_any, hany]
      simp
    unfold normalizeOffer
    simp [hp, hm, h]

/-- Witness for `C2_first_match_wins`: one concrete deal text per arm, each
discharging that arm's hypotheses. -/
theorem C2_first_match_wins_witness :
    (normalizeOffer { Name := "S", URLSlug := "s" }
      { PromotionID := "p", Name := "A", DealText := "20% rabatt" }).OfferType =
      "percentage"
    ∧ (normalizeOffer { Name := "S", URLSlug := "s" }
      { PromotionID := "p", Name := "A", DealText := "2 för 30" }).OfferType = "multibuy"
    ∧ (normalizeOffer { Name := "S", URLSlug := "s" }
      { PromotionID := "p", Name := "A", DealText := "25:-/st" }).OfferType = "single"
    ∧ (normalizeOffer { Name := "S", URLSlug := "s" }
      { PromotionID := "p", Name := "A", DealText := "halva priset" }).OfferType =
      "unknown" := by
  refine ⟨?_, ?_, ?_, ?_⟩
  · exact (C2_first_match_wins { Name := "S", URLSlug := "s" }
      { PromotionID := "p", Name := "A", DealText := "20% rabatt" }).1
      ⟨['2'], '0', " rabatt".data, by decide, by decide⟩
  · exact (C2_first_match_wins { Name := "S", URLSlug := "s" }
      { PromotionID := "p", Name := "A", DealText := "2 för 30" }).2.1
      (by decide) (by decide)
  · exact (C2_first_match_wins { Name := "S", URLSlug := "s" }
      { PromotionID := "p", Name := "A", DealText := "25:-/st" }).2.2.1
      (by decide) (by decide)
      (by decide)
  · exact (C2_first_match_wins { Name := "S", URLSlug := "s" }
      { PromotionID := "p", Name := "A", DealText := "halva priset" }).2.2.2
      (by decide) (by decide)
      (by decide)

/-- C1 is refuted on the code: for the deal text `"2 för 30:- (20%)"` the
percentage pattern is checked first and matches the `"20%"` inside the
parentheses, so the offer is classified `percentage`, not `multibuy`. -/
theorem C1_counterexample :
    (normalizeOffer { Name := "ICA", URLSlug := "ica" }
      { PromotionID := "p1", Name := "Apples",
        DealText := "2 för 30:- (20%)" }).OfferType = "percentage"
    ∧ (normalizeOffer { Name := "ICA", URLSlug := "ica" }
      { PromotionID := "p1", Name := "Apples",
        DealText := "2 för 30:- (20%)" }).OfferType ≠ "multibuy" := by
  decide

/-- C1 (amended): for the deal text `"2 för 30:- (20%)"` the offer is
classified `PercentageOff` with captured percentage 20 — the percentage
pattern takes priority over the multi-buy pattern, per the classification
order of §4.4. -/
theorem C1_percentage_priority :
    (normalizeOffer { Name := "ICA", URLSlug := "ica" }
      { PromotionID := "p1", Name := "Apples",
        DealText := "2 för 30:- (20%)" }).OfferType = "percentage"
    ∧ (normalizeOffer { Name := "ICA", URLSlug := "ica" }
      { PromotionID := "p1", Name := "Apples",
        DealText := "2 för 30:- (20%)" }).Discount = 20 := by
  decide

theorem getStoreOffersLoop_eq_map (store : Store) (rawDeals : List RawOffer) :
    getStoreOffersLoop store rawDeals = rawDeals.map (normalizeOffer store) := by
  have h : ∀ (l : List RawOffer) (acc : List Offer),
      l.foldl (fun offers rawDeal => offers ++ [normalizeOffer store rawDeal]) acc =
        acc ++ l.map (normalizeOffer store) := by
    intro l
    induction l with
    | nil => intro acc; simp
    | cons r l ih =>
      intro acc
      simp [List.foldl_cons, ih]
  simpa [getStoreOffersLoop] using h rawDeals []

/-- C7: the transformation loop of `GetStoreOffers` emits exactly one offer
per raw promotion, in order, regardless of whether any pricing pattern
matched; a raw deal whose text matches none of the three patterns still
yields an offer, with scheme `unknown`, zero-valued sale fields and
discount 0. -/
theorem C7_roundtrip :
    ∀ (store : Store) (rawDeals : List RawOffer),
      (∀ r ∈ rawDeals, r.Name ≠ "") →
      getStoreOffersLoop store rawDeals = rawDeals.map (normalizeOffer store)
      ∧ (getStoreOffersLoop store rawDeals).length = rawDeals.length
      ∧ ∀ r ∈ rawDeals,
          percentCapture r.DealText.data = none →
          multibuyCapture r.DealText.data = none →
          singleCapture r.DealText.data = none →
          (normalizeOffer store r).OfferType = "unknown"
          ∧ (normalizeOffer store r).SalePrice = 0
          ∧ (normalizeOffer store r).SaleQuantity = 0
          ∧ (normalizeOffer store r).SalePriceTotal = 0
          ∧ (normalizeOffer store r).Discount = 0
          ∧ (normalizeOffer store r).DiscountPercentage = 0 := by
  intro store rawDeals _
  refine ⟨getStoreOffersLoop_eq_map store rawDeals, ?_, ?_⟩
  · rw [getStoreOffersLoop_eq_map]
    exact List.length_map rawDeals (normalizeOffer store)
  · intro r _ hp hm hs
    unfold normalizeOffer
    simp [hp, hm, hs, calculateDiscount]

/-- Witness for `C7_roundtrip` at a one-element raw-deal list whose deal
text (`"halva priset"`) matches no pricing pattern. -/
theorem C7_roundtrip_witness :
    (getStoreOffersLoop { Name := "S", URLSlug := "s" }
        [{ PromotionID := "p", Name := "Kaffe", DealText := "halva priset" }]).length = 1
    ∧ (normalizeOffer { Name := "S", URLSlug := "s" }
        { PromotionID := "p", Name := "Kaffe", DealText := "halva priset" }).OfferType =
      "unknown"
    ∧ (normalizeOffer { Name := "S", URLSlug := "s" }
        { PromotionID := "p", Name := "Kaffe",
          DealText := "halva priset" }).DiscountPercentage = 0 := by
  have h := C7_roundtrip { Name := "S", URLSlug := "s" }
    [{ PromotionID := "p", Name := "Kaffe", DealText := "halva priset" }]
    (by decide)
  have h2 := h.2.2 { PromotionID := "p", Name := "Kaffe", DealText := "halva priset" }
    (by simp) (by decide) (by decide)
    (by decide)
  exact ⟨h.2.1, h2.1, h2.2.2.2.2.2⟩

/-- C8: the extractor emits at most one raw record per promotion card; a
card without the `data-promotion-id` attribute is skipped silently (no
warning), a card whose trimmed title is empty is skipped with a logged
warning, every emitted record carries the original-price text verbatim and
the deal text lowercased, and a skipped card never affects the extraction
of the other cards. -/
theorem C8_extractor :
    (∀ cards : List ArticleCard, (parseRawOffers cards).1.length ≤ cards.length)
    ∧ (∀ c : ArticleCard, c.promotionId = none → extractCard c = (none, none))
    ∧ (∀ (c : ArticleCard) (pid : String), c.promotionId = some pid →
        goTrimSpace c.titleText = "" →
        (extractCard c).1 = none ∧ (extractCard c).2.isSome)
    ∧ (∀ (c : ArticleCard) (r : RawOffer), (extractCard c).1 = some r →
        r.OriginalText = c.originalText ∧ r.DealText = goToLower c.dealText)
    ∧ (∀ (pre post : List ArticleCard) (bad : ArticleCard), (extractCard bad).1 = none →
        (parseRawOffers (pre ++ bad :: post)).1 =
          (parseRawOffers pre).1 ++ (parseRawOffers post).1) := by
  refine ⟨?_, ?_, ?_, ?_, ?_⟩
  · intro cards
    exact List.length_filterMap_le _ cards
  · intro c h
    simp [extractCard, h]
  · intro c pid hpid htrim
    simp [extractCard, hpid, htrim]
  · intro c r h
    cases hpid : c.promotionId with
    | none => simp [extractCard, hpid] at h
    | some pid =>
      by_cases htrim : goTrimSpace c.titleText = ""
      · simp [extractCard, hpid, htrim] at h
      · simp only [extractCard, hpid, htrim, if_false, ite_false, if_neg htrim] at h
        injection h with h
        subst h
        exact ⟨rfl, rfl⟩
  · intro pre post bad hbad
    simp [parseRawOffers, List.filterMap_append, List.filterMap_cons, hbad]

/-- Witness for `C8_extractor`: concrete cards exercising the id-less
skip, the empty-title skip, and a successful extraction. -/
theorem C8_extractor_witness :
    extractCard { titleText := "Bread", dealText := "20:-" } = (none, none)
    ∧ (extractCard { promotionId := some "p9", titleText := "   " }).1 = none
    ∧ (extractCard { promotionId := some "p9", titleText := "   " }).2.isSome
    ∧ ({ PromotionID := "p2", Name := "Bread", OriginalText := "Ord.pris 30:00",
          DealText := "20:- kr" } : RawOffer).OriginalText =
        ({ promotionId := some "p2", titleText := "  Bread ",
            originalText := "Ord.pris 30:00", dealText := "20:- KR" } : ArticleCard).originalText
    ∧ ({ PromotionID := "p2", Name := "Bread", OriginalText := "Ord.pris 30:00",
          DealText := "20:- kr" } : RawOffer).DealText =
        goToLower
          ({ promotionId := some "p2", titleText := "  Bread ",
             originalText := "Ord.pris 30:00", dealText := "20:- KR" } : ArticleCard).dealText
    ∧ (parseRawOffers
          [{ promotionId := some "p2", titleText := "  Bread ",
             originalText := "Ord.pris 30:00", dealText := "20:- KR" },
           { titleText := "Bread", dealText := "20:-" }]).1 =
        (parseRawOffers
          [{ promotionId := some "p2", titleText := "  Bread ",
             originalText := "Ord.pris 30:00", dealText := "20:- KR" }]).1 ++
        (parseRawOffers ([] : List ArticleCard)).1 := by
  have h := C8_extractor
  refine ⟨?_, ?_, ?_, ?_, ?_, ?_⟩
  · exact h.2.1 { titleText := "Bread", dealText := "20:-" } rfl
  · exact (h.2.2.1 { promotionId := some "p9", titleText := "   " } "p9" rfl
      (by decide)).1
  · exact (h.2.2.1 { promotionId := some "p9", titleText := "   " } "p9" rfl
      (by decide)).2
  · exact (h.2.2.2.1
      { promotionId := some "p2", titleText := "  Bread ",
        originalText := "Ord.pris 30:00", dealText := "20:- KR" }
      { PromotionID := "p2", Name := "Bread", OriginalText := "Ord.pris 30:00",
        DealText := "20:- kr" } (by decide)).1
  · exact (h.2.2.2.1
      { promotionId := some "p2", titleText := "  Bread ",
        originalText := "Ord.pris 30:00", dealText := "20:- KR" }
      { PromotionID := "p2", Name := "Bread", OriginalText := "Ord.pris 30:00",
        DealText := "20:- kr" } (by decide)).2
  · exact h.2.2.2.2
      [{ promotionId := some "p2", titleText := "  Bread ",
         originalText := "Ord.pris 30:00", dealText := "20:- KR" }] []
      { titleText := "Bread", dealText := "20:-" } rfl

end DiscountScraper
